import Mathlib

/-!
Shallow embedding of the WiFi extender hotspot service
(`src/wifi_extender/`): interface management, upstream connection
management, access-point service, bridge/routing service, and the
daemon orchestration (`service/daemon.py`).

External effects (subprocess invocations, file writes, status probes)
are modelled by explicit environment records carrying the outcome of
each external command; the Python objects' mutable attributes become
structure fields threaded through each operation.  Every operation
returns the Python `(success, message)` tuple as a `Res` value together
with the updated object state.
-/

namespace Hotspot

/-- Result tuple `(success, message)` returned by every service operation. -/
structure Res where
  success : Bool
  message : String
deriving Repr, DecidableEq

/-- Python truthiness of an `Optional[str]` value: `if password:` is true
exactly when the value is neither `None` nor the empty string. -/
def pyTruthy : Option String → Bool
  | none => false
  | some s => !s.isEmpty

/-! ## InterfaceManager (`core/interface_manager.py`) -/

/-- State of `InterfaceManager`: the physical interface name and the
optional virtual interface handle (`self.virtual_interface`). -/
structure InterfaceManager where
  physical_interface : String
  virtual_interface : Option String
deriving Repr, DecidableEq

/-- Embedding of `InterfaceManager.create_virtual_interface`.  `cmdOk` is
the outcome of the `iw dev ... interface add` command (`check=True`:
failure raises `CalledProcessError`, caught and reported). -/
def InterfaceManager.create_virtual_interface (m : InterfaceManager)
    (name_suffix : String) (cmdOk : Bool) : Res × InterfaceManager :=
  match m.virtual_interface with
  | some v => (⟨false, "Virtual interface " ++ v ++ " already exists"⟩, m)
  | none =>
    let virtual_name := m.physical_interface ++ "_" ++ name_suffix
    if cmdOk then
      (⟨true, "Successfully created virtual interface " ++ virtual_name⟩,
       { m with virtual_interface := some virtual_name })
    else
      (⟨false, "CalledProcessError"⟩, m)

/-- Embedding of `InterfaceManager.delete_virtual_interface`.  When no
virtual interface handle is held the method returns
`(False, "No virtual interface exists")` without touching any state;
otherwise `cmdOk` is the outcome of the `iw dev ... del` command. -/
def InterfaceManager.delete_virtual_interface (m : InterfaceManager)
    (cmdOk : Bool) : Res × InterfaceManager :=
  match m.virtual_interface with
  | none => (⟨false, "No virtual interface exists"⟩, m)
  | some _ =>
    if cmdOk then
      (⟨true, "Successfully deleted virtual interface"⟩,
       { m with virtual_interface := none })
    else
      (⟨false, "CalledProcessError"⟩, m)

/-! ## APService (`core/ap_service.py`) -/

/-- State of `APService`: the AP interface name and the `is_running` flag.
The hostapd/dnsmasq configuration files live at fixed `/tmp` paths outside
the object; their contents are returned by the configure operations. -/
structure APService where
  interface : String
  is_running : Bool
deriving Repr, DecidableEq

/-- Lines of the hostapd configuration written by `APService.configure_ap`:
the base stanza, followed by the WPA2 stanza exactly when `if password:`
is true (non-`None`, non-empty). -/
def hostapdConfigLines (interface ssid : String) (password : Option String)
    (channel : Nat) (hw_mode : String) : List String :=
  ["interface=" ++ interface,
   "driver=nl80211",
   "ssid=" ++ ssid,
   "hw_mode=" ++ hw_mode,
   "channel=" ++ toString channel,
   "ctrl_interface=/var/run/hostapd",
   "ctrl_interface_group=0",
   "ignore_broadcast_ssid=0"]
  ++ (if pyTruthy password then
        ["wpa=2",
         "wpa_key_mgmt=WPA-PSK",
         "rsn_pairwise=CCMP",
         "wpa_passphrase=" ++ password.getD ""]
      else [])

/-- Embedding of `APService.configure_ap`: builds the configuration text
and writes it to `/tmp/hostapd.conf`; `writeOk` is the outcome of the file
write (an exception is caught and reported).  Returns the result and the
written lines (`none` when the write failed). -/
def APService.configure_ap (s : APService) (ssid : String)
    (password : Option String) (channel : Nat) (hw_mode : String)
    (writeOk : Bool) : Res × Option (List String) :=
  if writeOk then
    (⟨true, "AP configuration created successfully"⟩,
     some (hostapdConfigLines s.interface ssid password channel hw_mode))
  else
    (⟨false, "OSError"⟩, none)

/-- Embedding of `APService.configure_dhcp`: writes the dnsmasq
configuration; `writeOk` is the outcome of the file write. -/
def APService.configure_dhcp (_s : APService) (writeOk : Bool) : Res :=
  if writeOk then ⟨true, "DHCP configuration created successfully"⟩
  else ⟨false, "OSError"⟩

/-- Outcome of the one failure-capable command inside `APService.stop`
(`ip addr flush`, run with `check=True`; the two `killall` commands use
`capture_output` and cannot raise). -/
structure APStopEnv where
  flushOk : Bool
deriving Repr, DecidableEq

/-- Embedding of `APService.stop`: kills hostapd/dnsmasq (never raises),
flushes the interface address (may raise, caught), removes the temporary
configuration files and clears `is_running`.  On a flush failure the
method returns early and `is_running` is left unchanged. -/
def APService.stop (s : APService) (env : APStopEnv) : Res × APService :=
  if env.flushOk then
    (⟨true, "Access point stopped successfully"⟩, { s with is_running := false })
  else
    (⟨false, "CalledProcessError"⟩, s)

/-- Outcomes of the five external commands run by `APService.start`, in
program order: address flush, address add, link up, hostapd, dnsmasq. -/
structure APStartEnv where
  flushOk : Bool
  addrAddOk : Bool
  linkUpOk : Bool
  hostapdOk : Bool
  dnsmasqOk : Bool
deriving Repr, DecidableEq

/-- Conjunction of all five command outcomes of `APService.start`. -/
def APStartEnv.allOk (env : APStartEnv) : Bool :=
  env.flushOk && env.addrAddOk && env.linkUpOk && env.hostapdOk && env.dnsmasqOk

/-- Embedding of `APService.start`: runs the five external commands in
sequence (each `check=True`); on success sets `is_running`; the first
`CalledProcessError` is caught, `self.stop()` is invoked for cleanup and
the failure is reported.  The method never consults any configuration
state: it unconditionally points hostapd/dnsmasq at the fixed `/tmp`
configuration paths. -/
def APService.start (s : APService) (env : APStartEnv) (stopEnv : APStopEnv) :
    Res × APService :=
  if env.allOk then
    (⟨true, "Access point started successfully"⟩, { s with is_running := true })
  else
    (⟨false, "CalledProcessError"⟩, (s.stop stopEnv).2)

/-! ## Connected-client enumeration (`APService.get_connected_clients`) -/

/-- A connected-client record as assembled by `get_connected_clients`:
the three fields parsed from a DHCP lease line, plus the
`signal_strength` key that is present only when a matching station
appeared in the `iw ... station dump` output (`none` models the key
being absent from the Python dict). -/
structure Client where
  mac_address : String
  ip_address : String
  hostname : String
  signal_strength : Option String
deriving Repr, DecidableEq

/-- One line of `iw dev <if> station dump` output, abstracted to the three
shapes the parser distinguishes: a `Station <mac> ...` header, a
`signal: <value>` line, or anything else. -/
inductive StationLine where
  | station (mac : String)
  | signalLine (value : String)
  | other
deriving Repr, DecidableEq

/-- Clients parsed from the dnsmasq leases file: each line is pre-split
into whitespace-separated parts; a line with at least five parts yields a
client from parts 1–3, shorter lines are skipped.  No `signal_strength`
key is ever set at this stage. -/
def leaseClients : List (List String) → List Client
  | [] => []
  | parts :: rest =>
    if 5 ≤ parts.length then
      { mac_address := parts.getD 1 "",
        ip_address := parts.getD 2 "",
        hostname := parts.getD 3 "",
        signal_strength := none } :: leaseClients rest
    else leaseClients rest

/-- The inner `for client in clients: ... break` loop: set
`signal_strength` on the first client whose `mac_address` matches. -/
def updateSignal : List Client → String → String → List Client
  | [], _, _ => []
  | c :: rest, mac, sig =>
    if c.mac_address = mac then
      { c with signal_strength := some sig } :: rest
    else
      c :: updateSignal rest mac sig

/-- The station-dump scanning loop: `current_mac` starts as `None`, a
`Station` header updates it, and a `signal:` line annotates the first
lease client with the current mac (if any); other lines are ignored. -/
def applySignalsAux (clients : List Client) (current_mac : Option String) :
    List StationLine → List Client
  | [] => clients
  | StationLine.station mac :: rest => applySignalsAux clients (some mac) rest
  | StationLine.signalLine v :: rest =>
    match current_mac with
    | some mac => applySignalsAux (updateSignal clients mac v) current_mac rest
    | none => applySignalsAux clients none rest
  | StationLine.other :: rest => applySignalsAux clients current_mac rest

/-- Scan of the whole station-dump output, starting with no current mac. -/
def applySignals (clients : List Client) (lines : List StationLine) : List Client :=
  applySignalsAux clients none lines

/-- Embedding of `APService.get_connected_clients`.  `leasesExist` is the
`os.path.exists` check on the dnsmasq leases file; `iwOk` is whether the
`iw ... station dump` command returned exit status 0 (only then is its
output scanned). -/
def APService.get_connected_clients (leasesExist : Bool)
    (leaseLines : List (List String)) (iwOk : Bool)
    (stationLines : List StationLine) : List Client :=
  let clients := if leasesExist then leaseClients leaseLines else []
  if iwOk then applySignals clients stationLines else clients

/-- The lease-derived identity of a client record (everything except the
radio-sourced `signal_strength` annotation). -/
def clientIdentity (c : Client) : String × String × String :=
  (c.mac_address, c.ip_address, c.hostname)

/-- The mac addresses announced by `Station` headers in a station dump. -/
def stationMacs : List StationLine → List String
  | [] => []
  | StationLine.station mac :: rest => mac :: stationMacs rest
  | StationLine.signalLine _ :: rest => stationMacs rest
  | StationLine.other :: rest => stationMacs rest

/-! ## ConnectionManager (`core/connection_manager.py`) -/

/-- Connectivity snapshot relevant to `connect_to_network`'s verification:
the `connected` and `ssid` entries of the status dictionary built by
`WiFiDetector.get_interface_status` (`ssid` is `None` unless an ESSID was
parsed from `iwconfig` output). -/
structure ConnStatus where
  connected : Bool
  ssid : Option String
deriving Repr, DecidableEq

/-- State of `ConnectionManager`: the managed interface name and the
`current_connection` snapshot (assigned only on verified connect). -/
structure ConnectionManager where
  interface : String
  current_connection : Option ConnStatus
deriving Repr, DecidableEq

/-- Lines of the wpa_supplicant configuration written by
`connect_to_network`: the network block carries a WPA-PSK stanza when
`if password:` is true, and `key_mgmt=NONE` otherwise. -/
def wpaSupplicantConfigLines (ssid : String) (password : Option String) :
    List String :=
  ["ctrl_interface=/run/wpa_supplicant",
   "update_config=1",
   "network=\x7b",
   "    ssid=\"" ++ ssid ++ "\""]
  ++ (if pyTruthy password then
        ["    key_mgmt=WPA-PSK",
         "    psk=\"" ++ password.getD "" ++ "\""]
      else
        ["    key_mgmt=NONE"])
  ++ ["\x7d"]

/-- Outcomes of the external steps of `connect_to_network`, in program
order: the configuration file write, the `wpa_supplicant` launch, the
`dhclient` run, and the status dictionary returned by the verification
probe (`none` models the empty dictionary returned for an untracked
interface, whose `status["connected"]` lookup raises and is caught). -/
structure ConnectEnv where
  writeOk : Bool
  wpaOk : Bool
  dhcpOk : Bool
  probe : Option ConnStatus
deriving Repr, DecidableEq

/-- Whether `connect_to_network` under environment `env` reaches and
passes the verification probe for `ssid`. -/
def ConnectEnv.okFor (env : ConnectEnv) (ssid : String) : Bool :=
  env.writeOk && env.wpaOk && env.dhcpOk &&
    (match env.probe with
     | some st => st.connected && st.ssid == some ssid
     | none => false)

/-- Embedding of `ConnectionManager.connect_to_network`: writes the
wpa_supplicant configuration, launches wpa_supplicant and dhclient (each
`check=True`), then verifies via `get_connection_status`; success — and
the assignment of `current_connection` — happens only when the probe
reports `connected` with the requested ssid.  The written configuration
lines are returned alongside (`none` when the write failed). -/
def ConnectionManager.connect_to_network (m : ConnectionManager)
    (ssid : String) (password : Option String) (env : ConnectEnv) :
    Res × ConnectionManager × Option (List String) :=
  let conf := wpaSupplicantConfigLines ssid password
  if !env.writeOk then (⟨false, "OSError"⟩, m, none)
  else if !env.wpaOk then (⟨false, "CalledProcessError"⟩, m, some conf)
  else if !env.dhcpOk then (⟨false, "CalledProcessError"⟩, m, some conf)
  else
    match env.probe with
    | none => (⟨false, "KeyError"⟩, m, some conf)
    | some st =>
      if st.connected ∧ st.ssid = some ssid then
        (⟨true, "Successfully connected to " ++ ssid⟩,
         { m with current_connection := some st }, some conf)
      else
        (⟨false, "Failed to connect to " ++ ssid⟩, m, some conf)

/-- Outcomes of the two failure-capable commands inside
`ConnectionManager.disconnect`: `killall wpa_supplicant` and
`dhclient -r` (both `check=True`). -/
structure DisconnectEnv where
  killOk : Bool
  releaseOk : Bool
deriving Repr, DecidableEq

/-- Embedding of `ConnectionManager.disconnect`: kills wpa_supplicant and
releases the DHCP lease; `current_connection` is cleared only when both
commands succeed. -/
def ConnectionManager.disconnect (m : ConnectionManager)
    (env : DisconnectEnv) : Res × ConnectionManager :=
  if !env.killOk then (⟨false, "CalledProcessError"⟩, m)
  else if !env.releaseOk then (⟨false, "CalledProcessError"⟩, m)
  else (⟨true, "Successfully disconnected"⟩, { m with current_connection := none })

/-! ## BridgeService (`core/bridge_service.py`) -/

/-- An iptables rule is the argument vector handed to `subprocess.run`. -/
abbrev Rule := List String

/-- State of `BridgeService`: the two interface names, the bridge device
name, the running flag and the `_iptables_rules` stack of installed
rules. -/
structure BridgeService where
  upstream_interface : String
  ap_interface : String
  bridge_name : String
  is_running : Bool
  iptables_rules : List Rule
deriving Repr, DecidableEq

/-- The three iptables rules constructed by `setup_routing`, in the order
they are installed: NAT masquerade, AP→upstream forward, and the
established-state return path. -/
def BridgeService.routingRules (s : BridgeService) : List Rule :=
  [["iptables", "-t", "nat", "-A", "POSTROUTING", "-o",
    s.upstream_interface, "-j", "MASQUERADE"],
   ["iptables", "-A", "FORWARD", "-i", s.ap_interface, "-o",
    s.upstream_interface, "-j", "ACCEPT"],
   ["iptables", "-A", "FORWARD", "-i", s.upstream_interface, "-o",
    s.ap_interface, "-m", "state", "--state", "RELATED,ESTABLISHED",
    "-j", "ACCEPT"]]

/-- Outcomes of the external effects of `BridgeService`, in program
order: the three `setup_bridge` commands (`ip link add`, `set master`,
`link up`, each `check=True`), the `/proc/.../ip_forward` write of "1",
the per-rule outcome of each `iptables -A` install (`check=True`), the
per-command exit status of each `iptables -D` removal (run with
`capture_output` only, so the outcome is ignored), and the
`/proc/.../ip_forward` write of "0" during `stop`. -/
structure BridgeEnv where
  linkAddOk : Bool
  setMasterOk : Bool
  linkUpOk : Bool
  fwdWriteOk : Bool
  ruleOk : Rule → Bool
  removeOk : Rule → Bool
  fwdClearOk : Bool

/-- Embedding of `BridgeService.setup_bridge`: three commands, first
failure aborts; no object state is touched. -/
def BridgeService.setup_bridge (_s : BridgeService) (env : BridgeEnv) : Res :=
  if env.linkAddOk && env.setMasterOk && env.linkUpOk then
    ⟨true, "Bridge interface created successfully"⟩
  else
    ⟨false, "CalledProcessError"⟩

/-- The rule-installation loop of `setup_routing`: each rule is run with
`check=True` and appended to the stack only after its command succeeded;
the first failure raises, leaving the earlier rules appended. -/
def installRules (env : BridgeEnv) (stack : List Rule) :
    List Rule → Bool × List Rule
  | [] => (true, stack)
  | r :: rest =>
    if env.ruleOk r then installRules env (stack ++ [r]) rest
    else (false, stack)

/-- Embedding of `BridgeService.setup_routing`: enables IP forwarding
(file write may raise, caught) then installs the three rules, appending
each to `_iptables_rules` as it succeeds. -/
def BridgeService.setup_routing (s : BridgeService) (env : BridgeEnv) :
    Res × BridgeService :=
  if !env.fwdWriteOk then (⟨false, "OSError"⟩, s)
  else
    let p := installRules env s.iptables_rules s.routingRules
    if p.1 then
      (⟨true, "Routing rules configured successfully"⟩,
       { s with iptables_rules := p.2 })
    else
      (⟨false, "CalledProcessError"⟩, { s with iptables_rules := p.2 })

/-- Embedding of `BridgeService.start`: `setup_bridge`, then
`setup_routing`; a routing failure triggers `cleanup_bridge` (pure
external commands, no object state) before the error is returned,
leaving any partially-installed rules on the stack. -/
def BridgeService.start (s : BridgeService) (env : BridgeEnv) :
    Res × BridgeService :=
  let b := s.setup_bridge env
  if !b.success then
    (⟨false, "Bridge setup failed: " ++ b.message⟩, s)
  else
    let p := s.setup_routing env
    if !p.1.success then
      (⟨false, "Routing setup failed: " ++ p.1.message⟩, p.2)
    else
      (⟨true, "Bridge and routing started successfully"⟩,
       { p.2 with is_running := true })

/-- Whether `BridgeService.start` succeeds under environment `env`. -/
def BridgeService.startOk (s : BridgeService) (env : BridgeEnv) : Bool :=
  env.linkAddOk && env.setMasterOk && env.linkUpOk && env.fwdWriteOk &&
    s.routingRules.all env.ruleOk

/-- The delete command derived from an installed rule: index 3 of the
argument vector (`-A`) is overwritten with `-D`. -/
def deleteCmd (r : Rule) : Rule := r.set 3 "-D"

/-- The rule-removal loop of `BridgeService.stop`: every delete command
is executed with `capture_output` (its exit status `env.removeOk` is
never consulted and cannot abort the loop); the list of commands actually
executed is returned as the observable trace. -/
def runRemovals (env : BridgeEnv) : List Rule → List Rule
  | [] => []
  | r :: rest =>
    let _exitOk := env.removeOk (deleteCmd r)
    deleteCmd r :: runRemovals env rest

/-- Embedding of `BridgeService.stop`: removes every installed rule in
reverse insertion order (best-effort), clears the stack, disables IP
forwarding (write may raise — caught, reported, but the stack is already
cleared), removes the bridge, and clears `is_running`.  Returns the
result, the new state and the trace of executed removal commands. -/
def BridgeService.stop (s : BridgeService) (env : BridgeEnv) :
    Res × BridgeService × List Rule :=
  let removals := runRemovals env s.iptables_rules.reverse
  let s1 := { s with iptables_rules := ([] : List Rule) }
  if env.fwdClearOk then
    (⟨true, "Bridge and routing stopped successfully"⟩,
     { s1 with is_running := false }, removals)
  else
    (⟨false, "OSError"⟩, s1, removals)

/-! ## WiFiExtenderDaemon (`service/daemon.py`) -/

/-- The `upstream` section of the daemon configuration. -/
structure UpstreamCfg where
  ssid : String
  password : Option String
deriving Repr, DecidableEq

/-- The `ap` section of the daemon configuration (`channel` defaults to 6
via `.get`). -/
structure APCfg where
  ssid : String
  password : Option String
  channel : Nat
deriving Repr, DecidableEq

/-- The loaded daemon configuration: each section may be absent, in which
case the corresponding bring-up phase is skipped. -/
structure DaemonConfig where
  upstream : Option UpstreamCfg
  ap : Option APCfg
deriving Repr, DecidableEq

/-- Observable collaborator invocations made by the daemon's service
management methods, used as the call trace. -/
inductive Call where
  | connectUpstream
  | configureAp
  | configureDhcp
  | apStart
  | bridgeStart
  | bridgeStop
  | apStop
  | disconnect
  | deleteVif
deriving Repr, DecidableEq

/-- State of `WiFiExtenderDaemon`: the loaded configuration, the four
optional collaborator objects (each `None` until `initialize_services`
creates it) and the `running` loop flag. -/
structure DaemonState where
  config : DaemonConfig
  connection_manager : Option ConnectionManager
  interface_manager : Option InterfaceManager
  ap_service : Option APService
  bridge_service : Option BridgeService
  running : Bool

/-- Environment for one pass of the daemon's service management: the
external outcomes consumed by each collaborator call, plus the status
dictionary read by the reconciliation loop (`none` models the empty
dictionary, whose `.get("connected", False)` yields `False`). -/
structure DaemonEnv where
  connect : ConnectEnv
  apConfWriteOk : Bool
  dhcpConfWriteOk : Bool
  apStart : APStartEnv
  apStop : APStopEnv
  bridge : BridgeEnv
  upstreamDown : DisconnectEnv
  vifDelOk : Bool
  statusProbe : Option ConnStatus

/-- Outcome of one `start_services` pass over the three collaborators the
method touches: success flag, their updated states, and the trace of
collaborator calls. -/
abbrev StartOutcome :=
  Bool × ConnectionManager × APService × BridgeService × List Call

/-- Bridge phase of `start_services`: start the bridge; on failure invoke
`self.ap_service.stop()` (the only rollback performed) and report
failure. -/
def bridgePhase (cm : ConnectionManager) (ap : APService)
    (bs : BridgeService) (env : DaemonEnv) (trace : List Call) :
    StartOutcome :=
  let p := bs.start env.bridge
  if p.1.success then
    (true, cm, ap, p.2, trace ++ [Call.bridgeStart])
  else
    let q := ap.stop env.apStop
    (false, cm, q.2, p.2, trace ++ [Call.bridgeStart, Call.apStop])

/-- AP phase of `start_services`: when an `ap` section is configured, run
`configure_ap`, `configure_dhcp` and `APService.start` in order, each
failure returning immediately; then fall through to the bridge phase. -/
def apPhase (cfg : DaemonConfig) (cm : ConnectionManager) (ap : APService)
    (bs : BridgeService) (env : DaemonEnv) (trace : List Call) :
    StartOutcome :=
  match cfg.ap with
  | none => bridgePhase cm ap bs env trace
  | some a =>
    let r1 := ap.configure_ap a.ssid a.password a.channel "g" env.apConfWriteOk
    if r1.1.success then
      let r2 := ap.configure_dhcp env.dhcpConfWriteOk
      if r2.success then
        let p := ap.start env.apStart env.apStop
        if p.1.success then
          bridgePhase cm p.2 bs env
            (trace ++ [Call.configureAp, Call.configureDhcp, Call.apStart])
        else
          (false, cm, p.2, bs,
           trace ++ [Call.configureAp, Call.configureDhcp, Call.apStart])
      else
        (false, cm, ap, bs, trace ++ [Call.configureAp, Call.configureDhcp])
    else
      (false, cm, ap, bs, trace ++ [Call.configureAp])

/-- Upstream phase and body of `start_services`: connect upstream when an
`upstream` section is configured (failure aborts), then the AP phase,
then the bridge phase. -/
def startServicesCore (cfg : DaemonConfig) (cm : ConnectionManager)
    (ap : APService) (bs : BridgeService) (env : DaemonEnv) :
    StartOutcome :=
  match cfg.upstream with
  | some u =>
    let p := cm.connect_to_network u.ssid u.password env.connect
    if p.1.success then
      apPhase cfg p.2.1 ap bs env [Call.connectUpstream]
    else
      (false, p.2.1, ap, bs, [Call.connectUpstream])
  | none => apPhase cfg cm ap bs env []

/-- Embedding of `WiFiExtenderDaemon.start_services`: requires the
connection manager, AP service and bridge service to be initialized
(`if not all([...])`), then runs the upstream, AP and bridge phases,
the mutated collaborators living on in the daemon state.  Returns the
success flag, the updated daemon state and the call trace. -/
def DaemonState.start_services (d : DaemonState) (env : DaemonEnv) :
    Bool × DaemonState × List Call :=
  match d.connection_manager, d.ap_service, d.bridge_service with
  | some cm, some ap, some bs =>
    let r := startServicesCore d.config cm ap bs env
    (r.1,
     { d with connection_manager := some r.2.1,
              ap_service := some r.2.2.1,
              bridge_service := some r.2.2.2.1 },
     r.2.2.2.2)
  | _, _, _ => (false, d, [])

/-- Embedding of `WiFiExtenderDaemon.stop_services`: stop the bridge,
stop the AP, disconnect upstream, delete the virtual interface — each
attempted when the collaborator exists, regardless of the previous
results (each collaborator catches its own command errors and reports
them as a `False` result rather than raising). -/
def DaemonState.stop_services (d : DaemonState) (env : DaemonEnv) :
    DaemonState × List Call :=
  let (bs', t1) :=
    match d.bridge_service with
    | some bs => (some (bs.stop env.bridge).2.1, [Call.bridgeStop])
    | none => (d.bridge_service, [])
  let (ap', t2) :=
    match d.ap_service with
    | some ap => (some (ap.stop env.apStop).2, [Call.apStop])
    | none => (d.ap_service, [])
  let (cm', t3) :=
    match d.connection_manager with
    | some cm => (some (cm.disconnect env.upstreamDown).2, [Call.disconnect])
    | none => (d.connection_manager, [])
  let (im', t4) :=
    match d.interface_manager with
    | some im => (some (im.delete_virtual_interface env.vifDelOk).2, [Call.deleteVif])
    | none => (d.interface_manager, [])
  ({ d with bridge_service := bs', ap_service := ap',
            connection_manager := cm', interface_manager := im' },
   t1 ++ t2 ++ t3 ++ t4)

/-- The loop's `status.get("connected", False)` read: `False` when the
status dictionary is empty. -/
def probeConnected : Option ConnStatus → Bool
  | some st => st.connected
  | none => false

/-- One iteration of the daemon's main service loop: read
`get_connection_status` and, when `.get("connected", False)` is false,
re-invoke `start_services` (its result is discarded); the AP client
monitoring that follows issues no lifecycle calls. -/
def DaemonState.tick (d : DaemonState) (env : DaemonEnv) :
    DaemonState × List Call :=
  match d.connection_manager with
  | some _ =>
    if probeConnected env.statusProbe then (d, [])
    else
      let p := d.start_services env
      (p.2.1, p.2.2)
  | none => (d, [])

/-- The daemon's main loop over a finite schedule of per-tick
environments, accumulating the trace of collaborator calls. -/
def DaemonState.runLoop (d : DaemonState) :
    List DaemonEnv → DaemonState × List Call
  | [] => (d, [])
  | e :: es =>
    let p := d.tick e
    let q := p.1.runLoop es
    (q.1, p.2 ++ q.2)

/-! ## Concrete fixtures for counterexamples and witnesses -/

/-- An `APService.start` environment in which all five commands succeed. -/
def apStartEnvAllOk : APStartEnv := ⟨true, true, true, true, true⟩

/-- An `APService.stop` environment in which the address flush succeeds. -/
def apStopEnvOk : APStopEnv := ⟨true⟩

/-- A connect environment that succeeds and verifies against ssid "Home". -/
def connEnvOkHome : ConnectEnv := ⟨true, true, true, some ⟨true, some "Home"⟩⟩

/-- A connect environment whose configuration-file write fails, so the
attempt aborts before any external command runs. -/
def connEnvFailWrite : ConnectEnv := ⟨false, true, true, none⟩

/-- A bridge environment in which every external effect succeeds. -/
def bridgeEnvAllOk : BridgeEnv :=
  ⟨true, true, true, true, fun _ => true, fun _ => true, true⟩

/-- A bridge environment in which the initial `ip link add` fails, so
`BridgeService.start` fails at `setup_bridge`. -/
def bridgeEnvLinkAddFail : BridgeEnv :=
  ⟨false, true, true, true, fun _ => true, fun _ => true, true⟩

/-- A disconnect environment in which both commands succeed. -/
def disconnectEnvOk : DisconnectEnv := ⟨true, true⟩

/-- A connect environment whose commands all succeed but whose
verification probe reports an association with a different ssid. -/
def connEnvWrongSsid : ConnectEnv := ⟨true, true, true, some ⟨true, some "Office"⟩⟩

/-- A bridge environment in which every setup effect succeeds but every
`iptables -D` removal command exits non-zero. -/
def bridgeEnvRemovalsFail : BridgeEnv :=
  ⟨true, true, true, true, fun _ => true, fun _ => false, true⟩

/-- A fixture connection manager on interface "wlan0". -/
def cmFixture : ConnectionManager := ⟨"wlan0", none⟩

/-- A fixture interface manager holding a virtual interface handle. -/
def imFixture : InterfaceManager := ⟨"wlan0", some "wlan0_ap0"⟩

/-- A fixture AP service on the virtual interface, not running. -/
def apFixture : APService := ⟨"wlan0_ap0", false⟩

/-- A fixture bridge service with an empty rule stack. -/
def bsFixture : BridgeService := ⟨"wlan0", "wlan0_ap0", "br0", false, []⟩

/-- A fixture daemon configuration with both sections present. -/
def cfgFixture : DaemonConfig :=
  ⟨some ⟨"Home", some "secret123"⟩, some ⟨"Extend", none, 6⟩⟩

/-- A fully initialized daemon fixture. -/
def daemonFixture : DaemonState :=
  ⟨cfgFixture, some cmFixture, some imFixture, some apFixture, some bsFixture, true⟩

/-- A daemon environment in which everything up to and including the AP
start succeeds but the bridge start fails at its first command. -/
def daemonEnvBridgeFail : DaemonEnv :=
  ⟨connEnvOkHome, true, true, apStartEnvAllOk, apStopEnvOk,
   bridgeEnvLinkAddFail, disconnectEnvOk, true, some ⟨true, some "Home"⟩⟩

/-- A reconciliation-tick environment: the status probe reports the
upstream disconnected and the recovery's connect attempt fails at the
configuration write. -/
def daemonEnvRecoveryFail : DaemonEnv :=
  ⟨connEnvFailWrite, true, true, apStartEnvAllOk, apStopEnvOk,
   bridgeEnvAllOk, disconnectEnvOk, true, some ⟨false, none⟩⟩

/-- A daemon environment in which every external effect succeeds. -/
def daemonEnvAllOk : DaemonEnv :=
  ⟨connEnvOkHome, true, true, apStartEnvAllOk, apStopEnvOk,
   bridgeEnvAllOk, disconnectEnvOk, true, some ⟨true, some "Home"⟩⟩

/-! ## Support lemmas -/

theorem pyTruthy_eq_true_iff (p : Option String) :
    pyTruthy p = true ↔ ∃ q, p = some q ∧ q ≠ "" := by
  cases p with
  | none => simp [pyTruthy]
  | some s => simp [pyTruthy, Bool.eq_false_iff, ne_eq, String.isEmpty_iff]

theorem pyTruthy_eq_false_iff (p : Option String) :
    pyTruthy p = false ↔ (p = none ∨ p = some "") := by
  cases p with
  | none => simp [pyTruthy]
  | some s => simp [pyTruthy, Bool.eq_false_iff, ne_eq, String.isEmpty_iff]

/-! ## C3 — destroy on an absent virtual-interface handle -/

/-- C3 counterexample: the claim that `delete_virtual_interface` on a
manager holding no handle "returns success" is false — on the concrete
manager `⟨"wlan0", none⟩` the call returns `success = false` (message
"No virtual interface exists"). -/
theorem c3_counterexample :
    ¬ ((InterfaceManager.mk "wlan0" none).delete_virtual_interface true).1.success = true := by
  decide

/-- C3 (amended): for every `InterfaceManager` holding no virtual
interface handle, `delete_virtual_interface` returns failure with the
message "No virtual interface exists" and leaves the state unchanged,
for either outcome of the (never-executed) external delete command. -/
theorem c3_delete_absent_handle (m : InterfaceManager) (cmdOk : Bool)
    (h : m.virtual_interface = none) :
    m.delete_virtual_interface cmdOk =
      (⟨false, "No virtual interface exists"⟩, m) := by
  simp [InterfaceManager.delete_virtual_interface, h]

/-- C3 witness: the amended theorem applied to the concrete manager
`⟨"wlan0", none⟩`. -/
theorem c3_delete_absent_handle_witness :
    (InterfaceManager.mk "wlan0" none).delete_virtual_interface true =
      (⟨false, "No virtual interface exists"⟩, InterfaceManager.mk "wlan0" none) :=
  c3_delete_absent_handle (InterfaceManager.mk "wlan0" none) true rfl

/-! ## C4 — AP start without prior configure -/

/-- C4 counterexample: the claim that starting the AP without a prior
successful `configure` yields a `NotConfigured` error and starts no
process is false — on a freshly constructed `APService` (which carries no
configuration state whatsoever), with all five external commands
succeeding, `start` returns success and sets `is_running`. -/
theorem c4_counterexample :
    ((APService.mk "wlan0_ap0" false).start apStartEnvAllOk apStopEnvOk).1.success = true ∧
    ((APService.mk "wlan0_ap0" false).start apStartEnvAllOk apStopEnvOk).2.is_running = true := by
  decide

/-- C4 (amended): `APService.start` performs no configuration check at
all — its result is determined solely by the five external command
outcomes (identical for a fresh unconfigured service with the same
interface), it succeeds exactly when all five commands succeed, and on
success the AP is started (`is_running`).  No `NotConfigured` error
exists. -/
theorem c4_start_never_checks_configuration (s : APService)
    (env : APStartEnv) (se : APStopEnv) :
    ((s.start env se).1.success = env.allOk) ∧
    ((s.start env se).1 = ((APService.mk s.interface false).start env se).1) ∧
    (env.allOk = true → (s.start env se).2.is_running = true) := by
  unfold APService.start
  cases h : env.allOk <;> simp [h]

/-- C4 witness: the amended theorem applied to a fresh service and the
all-success environment. -/
theorem c4_start_never_checks_configuration_witness :
    apStartEnvAllOk.allOk = true ∧
    ((APService.mk "wlan0_ap0" false).start apStartEnvAllOk apStopEnvOk).2.is_running = true :=
  ⟨by decide,
   (c4_start_never_checks_configuration (APService.mk "wlan0_ap0" false)
     apStartEnvAllOk apStopEnvOk).2.2 (by decide)⟩

/-! ## C10 — empty-string credential treated as absent -/

theorem wpa_marker_not_mem_base (interface ssid hw_mode : String) (channel : Nat) :
    "wpa=2" ∉ (["interface=" ++ interface, "driver=nl80211", "ssid=" ++ ssid,
      "hw_mode=" ++ hw_mode, "channel=" ++ toString channel,
      "ctrl_interface=/var/run/hostapd", "ctrl_interface_group=0",
      "ignore_broadcast_ssid=0"] : List String) := by
  intro hmem
  simp only [List.mem_cons, List.not_mem_nil, or_false] at hmem
  rcases hmem with h | h | h | h | h | h | h | h <;> simp [String.ext_iff] at h

/-- C10: at both public interfaces an empty-string credential behaves
like an absent one — the hostapd configuration contains the WPA2 stanza
(marked by its `wpa=2` line) exactly when the password is a non-empty
string, and the wpa_supplicant configuration contains `key_mgmt=NONE`
exactly when the password is `None` or empty. -/
theorem c10_empty_credential_open (interface ssid hw_mode : String)
    (password : Option String) (channel : Nat) :
    (("wpa=2" ∈ hostapdConfigLines interface ssid password channel hw_mode) ↔
      ∃ p, password = some p ∧ p ≠ "") ∧
    (("    key_mgmt=NONE" ∈ wpaSupplicantConfigLines ssid password) ↔
      (password = none ∨ password = some "")) := by
  constructor
  · rw [← pyTruthy_eq_true_iff]
    unfold hostapdConfigLines
    cases h : pyTruthy password <;>
      simp [h, List.mem_append, wpa_marker_not_mem_base interface ssid hw_mode channel]
  · rw [← pyTruthy_eq_false_iff]
    unfold wpaSupplicantConfigLines
    cases h : pyTruthy password <;>
      simp [h, List.mem_append, String.ext_iff]

/-! ## C7 — connect success requires verified ssid match -/

/-- C7: `connect_to_network` reports success exactly when the
configuration write, wpa_supplicant launch and dhclient run all succeed
AND the post-connection status probe reports `connected` with the
requested ssid; whenever the probe is reached but does not verify, the
call fails with the dedicated verification-failure message (never
success by assumption). -/
theorem c7_connect_verified (m : ConnectionManager) (ssid : String)
    (password : Option String) (env : ConnectEnv) :
    (((m.connect_to_network ssid password env).1.success = true) ↔
      (env.writeOk = true ∧ env.wpaOk = true ∧ env.dhcpOk = true ∧
        ∃ st, env.probe = some st ∧ st.connected = true ∧ st.ssid = some ssid)) ∧
    (∀ st, env.probe = some st → env.writeOk = true → env.wpaOk = true →
      env.dhcpOk = true → ¬(st.connected = true ∧ st.ssid = some ssid) →
      (m.connect_to_network ssid password env).1 =
        ⟨false, "Failed to connect to " ++ ssid⟩) := by
  constructor
  · unfold ConnectionManager.connect_to_network
    cases hw : env.writeOk <;> cases hp : env.wpaOk <;> cases hd : env.dhcpOk <;>
      cases hpr : env.probe <;> simp [hw, hp, hd, hpr]
    rename_i st
    by_cases hcond : st.connected = true ∧ st.ssid = some ssid
    · rw [if_pos hcond]
      simp [hcond.1, hcond.2]
    · rw [if_neg hcond]
      simp [hcond]
  · intro st hst hw hp hd hnot
    unfold ConnectionManager.connect_to_network
    simp only [hw, hp, hd, hst, Bool.not_true, Bool.false_eq_true, if_false]
    rw [if_neg hnot]

/-- C7 witness: with all commands succeeding but the probe reporting an
association with "Office", connecting to "Home" fails with the
verification-failure message. -/
theorem c7_connect_verified_witness :
    (cmFixture.connect_to_network "Home" none connEnvWrongSsid).1 =
      ⟨false, "Failed to connect to Home"⟩ :=
  (c7_connect_verified cmFixture "Home" none connEnvWrongSsid).2
    ⟨true, some "Office"⟩ rfl rfl rfl rfl (by decide)

/-! ## C9 — current_connection assigned only on verified success -/

/-- C9: `connect_to_network` assigns `current_connection` only when the
call succeeds (in which case it stores the probe snapshot); on every
failing call — command error, empty status dictionary, or verification
mismatch — `current_connection` (and the interface) is exactly what it
was before the call. -/
theorem c9_current_connection_frame (m : ConnectionManager) (ssid : String)
    (password : Option String) (env : ConnectEnv) :
    ((m.connect_to_network ssid password env).2.1.current_connection =
      (if (m.connect_to_network ssid password env).1.success = true then env.probe
       else m.current_connection)) ∧
    ((m.connect_to_network ssid password env).2.1.interface = m.interface) := by
  unfold ConnectionManager.connect_to_network
  cases hw : env.writeOk <;> cases hp : env.wpaOk <;> cases hd : env.dhcpOk <;>
    cases hpr : env.probe <;> simp [hw, hp, hd, hpr]
  rename_i st
  by_cases hcond : st.connected = true ∧ st.ssid = some ssid
  · rw [if_pos hcond]
    simp
  · rw [if_neg hcond]
    simp

/-! ## C6 — LIFO rule-stack discipline -/

theorem installRules_fst (env : BridgeEnv) (stack rules : List Rule) :
    (installRules env stack rules).1 = rules.all env.ruleOk := by
  induction rules generalizing stack with
  | nil => simp [installRules]
  | cons r rest ih =>
    cases h : env.ruleOk r <;> simp [installRules, h, ih, List.all_cons]

theorem installRules_all_ok (env : BridgeEnv) (stack rules : List Rule)
    (h : rules.all env.ruleOk = true) :
    installRules env stack rules = (true, stack ++ rules) := by
  induction rules generalizing stack with
  | nil => simp [installRules]
  | cons r rest ih =>
    rw [List.all_cons, Bool.and_eq_true] at h
    simp [installRules, h.1, ih _ h.2]

theorem runRemovals_eq_map (env : BridgeEnv) (rs : List Rule) :
    runRemovals env rs = rs.map deleteCmd := by
  induction rs with
  | nil => rfl
  | cons r rest ih => simp [runRemovals, ih]

theorem bridge_start_state (s : BridgeService) (env : BridgeEnv)
    (h : s.startOk env = true) :
    s.start env =
      (⟨true, "Bridge and routing started successfully"⟩,
       { s with iptables_rules := s.iptables_rules ++ s.routingRules,
                is_running := true }) := by
  unfold BridgeService.startOk at h
  simp only [Bool.and_eq_true] at h
  unfold BridgeService.start BridgeService.setup_bridge BridgeService.setup_routing
  simp [h.1.1.1.1, h.1.1.1.2, h.1.1.2, h.1.2, installRules_all_ok env _ _ h.2]

/-- C6: rule removal is exactly the reverse of installation.  For every
bridge service and environments: (a) a successful `start` on an empty
stack installs precisely the three routing rules in order; (b) the
subsequent `stop` executes the delete command of every installed rule in
exactly reverse insertion order; and (c) for every bridge service and
every environment — including ones where individual `iptables -D`
commands fail — `stop` executes one delete command per installed rule in
reverse insertion order and leaves the rule stack empty. -/
theorem c6_rule_stack_lifo (s : BridgeService) (envA envR : BridgeEnv)
    (h0 : s.iptables_rules = []) (hs : s.startOk envA = true) :
    ((s.start envA).2.iptables_rules = s.routingRules) ∧
    (((s.start envA).2.stop envR).2.2 = s.routingRules.reverse.map deleteCmd) ∧
    (∀ (t : BridgeService) (e : BridgeEnv),
      ((t.stop e).2.2 = t.iptables_rules.reverse.map deleteCmd) ∧
      ((t.stop e).2.2.length = t.iptables_rules.length) ∧
      ((t.stop e).2.1.iptables_rules = [])) := by
  have key : ∀ (t : BridgeService) (e : BridgeEnv),
      ((t.stop e).2.2 = t.iptables_rules.reverse.map deleteCmd) ∧
      ((t.stop e).2.2.length = t.iptables_rules.length) ∧
      ((t.stop e).2.1.iptables_rules = []) := by
    intro t e
    unfold BridgeService.stop
    cases h : e.fwdClearOk <;> simp [h, runRemovals_eq_map]
  refine ⟨?_, ?_, key⟩
  · rw [bridge_start_state s envA hs]
    simp [h0]
  · rw [(key _ envR).1, bridge_start_state s envA hs]
    simp [h0]

/-- C6 witness: on the concrete fixture, a successful start followed by a
stop whose removal commands all fail still executes the three delete
commands in reverse insertion order. -/
theorem c6_rule_stack_lifo_witness :
    ((bsFixture.start bridgeEnvAllOk).2.stop bridgeEnvRemovalsFail).2.2 =
      bsFixture.routingRules.reverse.map deleteCmd :=
  (c6_rule_stack_lifo bsFixture bridgeEnvAllOk bridgeEnvRemovalsFail rfl (by decide)).2.1

/-! ## C5 — client-list merge semantics -/

theorem updateSignal_identity (cs : List Client) (mac sig : String) :
    (updateSignal cs mac sig).map clientIdentity = cs.map clientIdentity := by
  induction cs with
  | nil => rfl
  | cons c rest ih =>
    by_cases h : c.mac_address = mac <;> simp [updateSignal, h, ih, clientIdentity]

theorem applySignalsAux_identity (S : List StationLine) (cs : List Client)
    (mo : Option String) :
    (applySignalsAux cs mo S).map clientIdentity = cs.map clientIdentity := by
  induction S generalizing cs mo with
  | nil => rfl
  | cons ln rest ih =>
    cases ln with
    | station mac => simpa [applySignalsAux] using ih cs (some mac)
    | signalLine v =>
      cases mo with
      | some mac =>
        simpa [applySignalsAux, updateSignal_identity] using
          ih (updateSignal cs mac v) (some mac)
      | none => simpa [applySignalsAux] using ih cs none
    | other => simpa [applySignalsAux] using ih cs mo

theorem leaseClients_signal_none (L : List (List String)) :
    ∀ c ∈ leaseClients L, c.signal_strength = none := by
  induction L with
  | nil => simp [leaseClients]
  | cons parts rest ih =>
    intro c hc
    unfold leaseClients at hc
    by_cases h : 5 ≤ parts.length
    · rw [if_pos h] at hc
      rcases List.mem_cons.1 hc with h1 | h1
      · rw [h1]
      · exact ih c h1
    · rw [if_neg h] at hc
      exact ih c hc

theorem updateSignal_inv (M : List String) (cs : List Client) (mac sig : String)
    (hm : mac ∈ M)
    (hcs : ∀ c ∈ cs, c.signal_strength = none ∨ c.mac_address ∈ M) :
    ∀ c ∈ updateSignal cs mac sig,
      c.signal_strength = none ∨ c.mac_address ∈ M := by
  induction cs with
  | nil => simp [updateSignal]
  | cons c rest ih =>
    intro x hx
    unfold updateSignal at hx
    by_cases h : c.mac_address = mac
    · rw [if_pos h] at hx
      rcases List.mem_cons.1 hx with h1 | h1
      · right
        rw [h1]
        simpa [h] using hm
      · exact hcs x (List.mem_cons_of_mem _ h1)
    · rw [if_neg h] at hx
      rcases List.mem_cons.1 hx with h1 | h1
      · exact hcs x (h1 ▸ List.mem_cons_self _ _)
      · exact ih (fun y hy => hcs y (List.mem_cons_of_mem _ hy)) x h1

theorem applySignalsAux_inv (M : List String) (S : List StationLine)
    (cs : List Client) (mo : Option String)
    (hmo : ∀ x, mo = some x → x ∈ M)
    (hS : ∀ x ∈ stationMacs S, x ∈ M)
    (hcs : ∀ c ∈ cs, c.signal_strength = none ∨ c.mac_address ∈ M) :
    ∀ c ∈ applySignalsAux cs mo S,
      c.signal_strength = none ∨ c.mac_address ∈ M := by
  induction S generalizing cs mo with
  | nil => simpa [applySignalsAux] using hcs
  | cons ln rest ih =>
    cases ln with
    | station mac =>
      have hmac : mac ∈ M := hS mac (by simp [stationMacs])
      exact ih cs (some mac) (fun x hx => by cases hx; exact hmac)
        (fun x hx => hS x (by simp [stationMacs, hx])) hcs
    | signalLine v =>
      cases mo with
      | some mac =>
        have hmac : mac ∈ M := hmo mac rfl
        exact ih (updateSignal cs mac v) (some mac)
          (fun x hx => by cases hx; exact hmac)
          (fun x hx => hS x (by simp [stationMacs, hx]))
          (updateSignal_inv M cs mac v hmac hcs)
      | none =>
        exact ih cs none (fun x hx => by cases hx)
          (fun x hx => hS x (by simp [stationMacs, hx])) hcs
    | other =>
      exact ih cs mo hmo (fun x hx => hS x (by simp [stationMacs, hx])) hcs

/-- C5 counterexample: the claim that a client present only in the
radio-level source still appears in the merge is false — with an empty
lease file and a station dump announcing station "aa:bb" with a signal
reading, `get_connected_clients` returns the empty list: the
radio-only client is dropped, not reported with absent lease fields. -/
theorem c5_counterexample :
    APService.get_connected_clients true []
        true [StationLine.station "aa:bb", StationLine.signalLine "-50 dBm"] =
      ([] : List Client) := by
  decide

/-- C5 (amended): `get_connected_clients` returns exactly the
lease-derived clients — the station dump never adds, removes or reorders
clients (it can only annotate `signal_strength`); a lease-only client
appears with `signal_strength` absent (`none`, never synthesized), and a
`signal_strength` is ever present only for a mac announced in the
station dump; a station-dump-only client does not appear at all. -/
theorem c5_clients_merge (leasesExist : Bool) (L : List (List String))
    (iwOk : Bool) (S : List StationLine) :
    ((APService.get_connected_clients leasesExist L iwOk S).map clientIdentity =
      (if leasesExist then leaseClients L else []).map clientIdentity) ∧
    (∀ c ∈ leaseClients L, c.signal_strength = none) ∧
    (∀ c ∈ APService.get_connected_clients leasesExist L iwOk S,
      c.signal_strength = none ∨ c.mac_address ∈ stationMacs S) := by
  refine ⟨?_, leaseClients_signal_none L, ?_⟩
  · unfold APService.get_connected_clients
    cases iwOk <;> simp [applySignals, applySignalsAux_identity]
  · unfold APService.get_connected_clients
    have hbase : ∀ c ∈ (if leasesExist then leaseClients L else []),
        c.signal_strength = none ∨ c.mac_address ∈ stationMacs S := by
      cases leasesExist with
      | false => simp
      | true =>
        intro c hc
        exact Or.inl (leaseClients_signal_none L c (by simpa using hc))
    cases iwOk with
    | false => simpa using hbase
    | true =>
      simpa [applySignals] using
        applySignalsAux_inv (stationMacs S) S _ none
          (fun x hx => by cases hx) (fun x hx => hx) hbase

/-- C5 witness: with one lease entry for "aa" and a station dump
announcing only "bb", the merge keeps exactly the lease client, and the
amended theorem instantiated at the resulting client confirms its
`signal_strength` is absent. -/
theorem c5_clients_merge_witness :
    ((APService.get_connected_clients true [["0", "aa", "ip", "host", "x"]]
        true [StationLine.station "bb", StationLine.signalLine "-50 dBm"]).map clientIdentity =
      (if true then leaseClients [["0", "aa", "ip", "host", "x"]] else []).map clientIdentity) ∧
    ((Client.mk "aa" "ip" "host" none).signal_strength = none ∨
      (Client.mk "aa" "ip" "host" none).mac_address ∈
        stationMacs [StationLine.station "bb", StationLine.signalLine "-50 dBm"]) :=
  ⟨(c5_clients_merge true [["0", "aa", "ip", "host", "x"]]
      true [StationLine.station "bb", StationLine.signalLine "-50 dBm"]).1,
   (c5_clients_merge true [["0", "aa", "ip", "host", "x"]]
      true [StationLine.station "bb", StationLine.signalLine "-50 dBm"]).2.2
     (Client.mk "aa" "ip" "host" none) (by decide)⟩

/-! ## Daemon support lemmas -/

theorem connect_success_eq_okFor (m : ConnectionManager) (ssid : String)
    (password : Option String) (env : ConnectEnv) :
    (m.connect_to_network ssid password env).1.success = env.okFor ssid := by
  unfold ConnectionManager.connect_to_network ConnectEnv.okFor
  cases hw : env.writeOk <;> cases hp : env.wpaOk <;> cases hd : env.dhcpOk <;>
    cases hpr : env.probe <;> simp [hw, hp, hd, hpr]
  rename_i st
  by_cases hcond : st.connected = true ∧ st.ssid = some ssid
  · rw [if_pos hcond]
    simp [hcond.1, hcond.2]
  · rw [if_neg hcond]
    have : (st.connected && (st.ssid == some ssid)) = false := by
      cases hc : st.connected <;> simp_all [beq_iff_eq]
    simp [this]

theorem APService.start_ok (s : APService) (env : APStartEnv) (se : APStopEnv)
    (h : env.allOk = true) :
    s.start env se =
      (⟨true, "Access point started successfully"⟩, { s with is_running := true }) := by
  unfold APService.start
  rw [h]
  rfl

theorem setup_routing_success (s : BridgeService) (env : BridgeEnv) :
    (s.setup_routing env).1.success =
      (env.fwdWriteOk && s.routingRules.all env.ruleOk) := by
  rw [← installRules_fst env s.iptables_rules]
  unfold BridgeService.setup_routing
  cases h4 : env.fwdWriteOk <;>
    cases h5 : (installRules env s.iptables_rules s.routingRules).1 <;>
    simp [h4, h5]

theorem bridge_start_success (s : BridgeService) (env : BridgeEnv) :
    (s.start env).1.success = s.startOk env := by
  unfold BridgeService.start BridgeService.setup_bridge BridgeService.startOk
  cases h1 : env.linkAddOk <;> cases h2 : env.setMasterOk <;>
    cases h3 : env.linkUpOk <;> simp [h1, h2, h3]
  have hsr := setup_routing_success s env
  cases h4 : (s.setup_routing env).1.success
  · rw [h4] at hsr
    simp [h4, ← hsr]
  · rw [h4] at hsr
    simp [h4, ← hsr]

theorem bridge_stop_env_ok (bs : BridgeService) :
    (bs.stop bridgeEnvAllOk).2.1 =
      { bs with iptables_rules := [], is_running := false } := by
  simp [BridgeService.stop, bridgeEnvAllOk]

theorem ap_stop_env_ok (ap : APService) :
    (ap.stop apStopEnvOk).2 = { ap with is_running := false } := by
  simp [APService.stop, apStopEnvOk]

theorem disconnect_env_ok (cm : ConnectionManager) :
    (cm.disconnect disconnectEnvOk).2 = { cm with current_connection := none } := by
  simp [ConnectionManager.disconnect, disconnectEnvOk]

theorem delete_vif_env_ok (im : InterfaceManager) :
    (im.delete_virtual_interface true).2 = { im with virtual_interface := none } := by
  cases im with
  | mk p vi => cases vi <;> simp [InterfaceManager.delete_virtual_interface]

theorem daemon_eta (d : DaemonState) (cm : ConnectionManager) (ap : APService)
    (bs : BridgeService) (hcm : d.connection_manager = some cm)
    (hap : d.ap_service = some ap) (hbs : d.bridge_service = some bs) :
    { d with connection_manager := some cm, ap_service := some ap,
             bridge_service := some bs } = d := by
  cases d
  dsimp only at hcm hap hbs
  rw [hcm, hap, hbs]

theorem tick_recovery_fail (d : DaemonState) (cm : ConnectionManager)
    (ap : APService) (bs : BridgeService) (u : UpstreamCfg) (env : DaemonEnv)
    (hcm : d.connection_manager = some cm) (hap : d.ap_service = some ap)
    (hbs : d.bridge_service = some bs) (hu : d.config.upstream = some u)
    (hw : env.connect.writeOk = false)
    (hpc : probeConnected env.statusProbe = false) :
    d.tick env = (d, [Call.connectUpstream]) := by
  have hfail : cm.connect_to_network u.ssid u.password env.connect =
      (⟨false, "OSError"⟩, cm, none) := by
    unfold ConnectionManager.connect_to_network
    simp [hw]
  unfold DaemonState.tick
  rw [hcm]
  rw [hpc]
  unfold DaemonState.start_services
  rw [hcm, hap, hbs]
  unfold startServicesCore
  rw [hu]
  simp [hfail, daemon_eta d cm ap bs hcm hap hbs]

/-! ## C8 — stop_services teardown order -/

/-- C8: `stop_services` tears down in the exact reverse of bring-up order
— bridge, then AP, then upstream link, then virtual interface — invoking
each present collaborator exactly once regardless of the environment
(hence even when an earlier layer's teardown reports failure); and under
an all-success environment every collaborator reaches its torn-down
state: bridge stopped with an empty rule stack, AP stopped, upstream
connection cleared, virtual-interface handle released.  (The daemon
keeps no explicit lifecycle state variable; `stop_services` always runs
to completion, which is the code's analogue of ending `Stopped`.) -/
theorem c8_stop_services_reverse_teardown (d : DaemonState) (env : DaemonEnv) :
    ((d.stop_services env).2 =
      (if d.bridge_service.isSome then [Call.bridgeStop] else []) ++
      (if d.ap_service.isSome then [Call.apStop] else []) ++
      (if d.connection_manager.isSome then [Call.disconnect] else []) ++
      (if d.interface_manager.isSome then [Call.deleteVif] else [])) ∧
    ((d.stop_services daemonEnvAllOk).1.bridge_service =
      d.bridge_service.map fun bs =>
        { bs with iptables_rules := [], is_running := false }) ∧
    ((d.stop_services daemonEnvAllOk).1.ap_service =
      d.ap_service.map fun ap => { ap with is_running := false }) ∧
    ((d.stop_services daemonEnvAllOk).1.connection_manager =
      d.connection_manager.map fun cm => { cm with current_connection := none }) ∧
    ((d.stop_services daemonEnvAllOk).1.interface_manager =
      d.interface_manager.map fun im => { im with virtual_interface := none }) := by
  obtain ⟨cfg, cmo, imo, apo, bso, run⟩ := d
  refine ⟨?_, ?_, ?_, ?_, ?_⟩ <;>
    cases bso <;> cases apo <;> cases cmo <;> cases imo <;>
      simp [DaemonState.stop_services, daemonEnvAllOk, bridge_stop_env_ok,
        ap_stop_env_ok, disconnect_env_ok, delete_vif_env_ok]

/-! ## C1 — rollback after bridge-start failure -/

/-- C1 counterexample: the claim that a failed `BridgeRouter.start` (after
virtual interface, upstream connect and AP start all succeeded) rolls
back AP stop, upstream disconnect and interface destroy each exactly
once is false — on the concrete fixture, `start_services` invokes
`ap_service.stop` once but never invokes `disconnect` or
`delete_virtual_interface`. -/
theorem c1_counterexample :
    (daemonFixture.start_services daemonEnvBridgeFail).2.2.count Call.apStop = 1 ∧
    (daemonFixture.start_services daemonEnvBridgeFail).2.2.count Call.disconnect = 0 ∧
    (daemonFixture.start_services daemonEnvBridgeFail).2.2.count Call.deleteVif = 0 ∧
    ¬((daemonFixture.start_services daemonEnvBridgeFail).2.2.count Call.disconnect = 1 ∧
      (daemonFixture.start_services daemonEnvBridgeFail).2.2.count Call.deleteVif = 1) := by
  decide

/-- C1 (amended): when the upstream connect, AP configure, DHCP configure
and AP start all succeed and `BridgeService.start` then fails,
`start_services` reports failure and performs only
`AccessPointController.stop` as rollback (exactly once, as the last
call); `UpstreamLink.disconnect` and `InterfaceVirtualizer.destroy` are
not invoked during the failed `start_services` — full teardown happens
only in `stop_services`. -/
theorem c1_bridge_failure_rollback (d : DaemonState) (cm : ConnectionManager)
    (ap : APService) (bs : BridgeService) (u : UpstreamCfg) (a : APCfg)
    (env : DaemonEnv)
    (hcm : d.connection_manager = some cm) (hap : d.ap_service = some ap)
    (hbs : d.bridge_service = some bs) (hu : d.config.upstream = some u)
    (ha : d.config.ap = some a) (hconn : env.connect.okFor u.ssid = true)
    (hw1 : env.apConfWriteOk = true) (hw2 : env.dhcpConfWriteOk = true)
    (hst : env.apStart.allOk = true) (hbf : bs.startOk env.bridge = false) :
    (d.start_services env).1 = false ∧
    (d.start_services env).2.2 =
      [Call.connectUpstream, Call.configureAp, Call.configureDhcp,
       Call.apStart, Call.bridgeStart, Call.apStop] := by
  have hb : (bs.start env.bridge).1.success = false := by
    rw [bridge_start_success, hbf]
  have hc : (cm.connect_to_network u.ssid u.password env.connect).1.success = true := by
    rw [connect_success_eq_okFor, hconn]
  unfold DaemonState.start_services
  rw [hcm, hap, hbs]
  unfold startServicesCore
  rw [hu]
  simp only [hc, if_true]
  unfold apPhase
  rw [ha]
  simp [APService.configure_ap, hw1, APService.configure_dhcp, hw2,
    APService.start_ok _ _ _ hst, bridgePhase, hb]

/-- C1 witness: the amended theorem applied to the concrete fixture with
a bridge environment failing at `ip link add`. -/
theorem c1_bridge_failure_rollback_witness :
    (daemonFixture.start_services daemonEnvBridgeFail).1 = false ∧
    (daemonFixture.start_services daemonEnvBridgeFail).2.2 =
      [Call.connectUpstream, Call.configureAp, Call.configureDhcp,
       Call.apStart, Call.bridgeStart, Call.apStop] :=
  c1_bridge_failure_rollback daemonFixture cmFixture apFixture bsFixture
    ⟨"Home", some "secret123"⟩ ⟨"Extend", none, 6⟩ daemonEnvBridgeFail
    rfl rfl rfl rfl rfl (by decide) rfl rfl (by decide) (by decide)

/-! ## C2 — bounded recovery attempts and the Failed state -/

/-- C2 counterexample: the claim that after a bounded number of
consecutive failed recovery attempts the daemon stops retrying is false
— over four consecutive ticks whose status probe reports the upstream
disconnected and whose recovery attempt fails every time (one more tick
than the three-consecutive-failures scenario the specification gives for
reaching the attempt limit), an automatic recovery call occurs on every
single tick, including the fourth, and the daemon is still in its
running loop: no `Failed` latch exists anywhere in the state. -/
theorem c2_counterexample :
    (daemonFixture.runLoop (List.replicate 4 daemonEnvRecoveryFail)).2.count
        Call.connectUpstream = 4 ∧
    (daemonFixture.runLoop (List.replicate 4 daemonEnvRecoveryFail)).1.running = true := by
  decide

/-- C2 (amended): the daemon retries recovery without any attempt limit —
for every number `n` of consecutive ticks that observe the upstream
disconnected and whose recovery attempt fails immediately, the loop
performs exactly one recovery call per tick (`n` in total, never ceasing)
and the daemon state is completely unchanged: there is no `Failed` state
and no retry budget. -/
theorem c2_unbounded_retry (d : DaemonState) (cm : ConnectionManager)
    (ap : APService) (bs : BridgeService) (u : UpstreamCfg) (env : DaemonEnv)
    (n : Nat)
    (hcm : d.connection_manager = some cm) (hap : d.ap_service = some ap)
    (hbs : d.bridge_service = some bs) (hu : d.config.upstream = some u)
    (hw : env.connect.writeOk = false)
    (hpc : probeConnected env.statusProbe = false) :
    (d.runLoop (List.replicate n env)).1 = d ∧
    (d.runLoop (List.replicate n env)).2 =
      List.replicate n Call.connectUpstream := by
  have ht := tick_recovery_fail d cm ap bs u env hcm hap hbs hu hw hpc
  induction n with
  | zero => simp [DaemonState.runLoop]
  | succ k ih =>
    rw [List.replicate_succ, List.replicate_succ]
    unfold DaemonState.runLoop
    rw [ht]
    simp [ih.1, ih.2]

/-- C2 witness: the amended theorem applied to the concrete fixture over
four consecutive failing ticks. -/
theorem c2_unbounded_retry_witness :
    (daemonFixture.runLoop (List.replicate 4 daemonEnvRecoveryFail)).1 = daemonFixture ∧
    (daemonFixture.runLoop (List.replicate 4 daemonEnvRecoveryFail)).2 =
      List.replicate 4 Call.connectUpstream :=
  c2_unbounded_retry daemonFixture cmFixture apFixture bsFixture
    ⟨"Home", some "secret123"⟩ daemonEnvRecoveryFail 4
    rfl rfl rfl rfl (by decide) (by decide)

end Hotspot
